import Mathlib

/-!
Verification development for a corpus of three Cloudflare-Worker text-to-image
proxy variants:

* `Horde`  — `src/index.js`: two-phase AI-Horde worker (`submitRequest`,
  `checkStatus`, chunked base64 image encoding).
* `Subnp`  — `src/unnamed/part_000`: SSE streaming SubNP worker
  (`generateImage` with a two-endpoint fallback loop).
* `Proxy`  — `src/unnamed/part_001`: older CORS-proxy SubNP variant.

The JavaScript is embedded shallowly: outbound `fetch` calls become oracle
arguments, `request.json()` becomes an `Except` value, JS truthiness of
strings is modelled by `truthyStr`, and thrown exceptions travel through the
`threw`/`Except.error` constructors of the oracles (every handler in the
source catches them and converts them to envelopes).
-/

deriving instance DecidableEq for Except

/-- JS truthiness of a possibly-absent string value: `undefined`/`null` and
the empty string are falsy, every other string is truthy. -/
def truthyStr : Option String → Bool
  | some s => s ≠ ""
  | none => false

/-- `Response.ok` of the fetch API: status in the inclusive-exclusive
range [200, 300). -/
def isOkStatus (s : Nat) : Bool := 200 ≤ s && s < 300

/-- Strip leading and trailing whitespace from a character sequence. -/
def trimChars (cs : List Char) : List Char :=
  ((cs.dropWhile Char.isWhitespace).reverse.dropWhile Char.isWhitespace).reverse

/-- `String.prototype.trim` of JS: drop whitespace at both ends. -/
def jsTrim (s : String) : String := String.mk (trimChars s.data)

/-- `String.prototype.startsWith` of JS, on the character sequences. -/
def startsWithStr (s pre : String) : Bool := List.isPrefixOf pre.data s.data

/-- Outcome of one outbound `fetch` of an event-stream endpoint: either the
promise rejected (`threw`, carrying `error.message`), or a response arrived
with a transport status, a body delivered as a list of text chunks (the
`reader.read()` sequence, already UTF-8 decoded), and the body text that
`response.text()` would produce for the error paths. -/
inductive FetchOut where
  | threw (msg : String)
  | resp (status : Nat) (chunks : List (List Char)) (text : String)
deriving DecidableEq

/-! ### Newline framing of the SSE buffer

`buffer += decoder.decode(value); const lines = buffer.split('\n');
buffer = lines.pop() || ''` — the complete lines are everything before the
last newline, the retained buffer seed is the fragment after it. -/

/-- Split a text on `'\n'`: the first component is the list of complete
(newline-terminated) lines, the second is the trailing fragment that
`lines.pop()` puts back into the buffer. -/
def splitNl : List Char → List (List Char) × List Char
  | [] => ([], [])
  | c :: cs =>
    let r := splitNl cs
    if c = '\n' then ([] :: r.1, r.2)
    else
      match r.1 with
      | [] => ([], c :: r.2)
      | l :: ls => ((c :: l) :: ls, r.2)

/-- One iteration of the `while (true) { ... reader.read() ... }` loop,
generic in the per-line handler `pl`: append the chunk to the buffer, split
off the complete lines, fold the handler over them, and retain the trailing
fragment as the new buffer. -/
def chunkFold {α : Type} (pl : α → List Char → α) (p : α × List Char)
    (chunk : List Char) : α × List Char :=
  let s := splitNl (p.2 ++ chunk)
  (s.1.foldl pl p.1, s.2)

/-! ### Model of `JSON.parse` on SSE payload lines

The streamed records are flat JSON objects with string (and occasionally
numeric) fields — `{"status":"complete","imageUrl":"..."}` and the like.
`JSON.parse` is modelled by a recursive-descent reader of exactly that
fragment: one flat object whose values are escape-free strings or
unsigned integers; everything else (nesting, other value kinds, trailing
garbage) is a parse failure, i.e. `none`, which the workers swallow. -/

/-- A JSON value of the modelled fragment. -/
inductive JVal where
  | str (s : String)
  | num (n : Nat)
deriving DecidableEq

/-- Drop leading JSON whitespace. -/
def skipWs : List Char → List Char
  | c :: cs => if c = ' ' ∨ c = '\t' ∨ c = '\n' ∨ c = '\r' then skipWs cs else c :: cs
  | [] => []

/-- Read the remainder of a double-quoted string (the opening quote already
consumed); returns the contents and the rest of the input. -/
def parseQString : List Char → Option (List Char × List Char)
  | [] => none
  | c :: cs =>
    if c = '"' then some ([], cs)
    else
      match parseQString cs with
      | some (s, r) => some (c :: s, r)
      | none => none

/-- Numeric value of a decimal digit character. -/
def digitVal (c : Char) : Nat := c.toNat - 48

/-- Read a nonempty run of decimal digits as a number. -/
def parseNum (cs : List Char) : Option (Nat × List Char) :=
  let ds := cs.takeWhile (fun c => c.isDigit)
  if ds.isEmpty then none
  else some (ds.foldl (fun a c => a * 10 + digitVal c) 0, cs.dropWhile (fun c => c.isDigit))

/-- Read one JSON value of the modelled fragment. -/
def parseVal (cs : List Char) : Option (JVal × List Char) :=
  match cs with
  | '"' :: rest =>
    match parseQString rest with
    | some (s, r) => some (.str (String.mk s), r)
    | none => none
  | _ =>
    match parseNum cs with
    | some (n, r) => some (.num n, r)
    | none => none

/-- Read the members of an object, positioned just after `\x7b` or after a
comma; fuelled by the input length to make the recursion evidently total. -/
def parsePairs : Nat → List Char → Option (List (String × JVal) × List Char)
  | 0, _ => none
  | fuel + 1, cs =>
    match skipWs cs with
    | '"' :: rest =>
      match parseQString rest with
      | some (k, r1) =>
        match skipWs r1 with
        | ':' :: r2 =>
          match parseVal (skipWs r2) with
          | some (v, r3) =>
            match skipWs r3 with
            | ',' :: r4 =>
              match parsePairs fuel r4 with
              | some (ps, r5) => some ((String.mk k, v) :: ps, r5)
              | none => none
            | '\x7d' :: r4 => some ([(String.mk k, v)], r4)
            | _ => none
          | none => none
        | _ => none
      | none => none
    | _ => none

/-- Model of `JSON.parse` restricted to one flat object (see section note);
`none` models a thrown `SyntaxError`. -/
def parseJsonFlat (cs : List Char) : Option (List (String × JVal)) :=
  match skipWs cs with
  | '\x7b' :: rest =>
    match skipWs rest with
    | '\x7d' :: tail => if (skipWs tail).isEmpty then some [] else none
    | _ =>
      match parsePairs (rest.length + 1) rest with
      | some (obj, tail) => if (skipWs tail).isEmpty then some obj else none
      | none => none
  | _ => none

/-- Field access `obj.k` when the field holds a string, `none` otherwise. -/
def lookupStr (o : List (String × JVal)) (k : String) : Option String :=
  match o.lookup k with
  | some (JVal.str s) => some s
  | _ => none

/-! ### Binary Encoder — `src/index.js` lines 288-297

```js
let binary = ''
const chunkSize = 8192
for (let i = 0; i < bytes.length; i += chunkSize) {
  const chunk = bytes.slice(i, i + chunkSize)
  binary += String.fromCharCode.apply(null, Array.from(chunk))
}
const base64 = btoa(binary)
```

A JS string is modelled by its sequence of char codes, so
`String.fromCharCode` is ToUint16 (`% 65536`) on each byte and `btoa` is
base64 over the accumulated code sequence. -/

/-- `String.fromCharCode` applied elementwise: each argument is reduced
modulo 2^16 and becomes one char code of the result. -/
def fromCharCodes (bs : List Nat) : List Nat := bs.map (fun b => b % 65536)

/-- The chunked accumulation of `binary`: 8192 bytes at a time through
`String.fromCharCode`, concatenated. -/
def binaryChunked : List Nat → List Nat
  | [] => []
  | b :: bs => fromCharCodes ((b :: bs).take 8192) ++ binaryChunked ((b :: bs).drop 8192)
termination_by bytes => bytes.length
decreasing_by
  simp only [List.length_drop, List.length_cons]
  omega

/-- The base64 alphabet used by `btoa`. -/
def b64Alphabet : List Char :=
  "ABCDEFGHIJKLMNOPQRSTUVWXYZabcdefghijklmnopqrstuvwxyz0123456789+/".data

/-- Sextet to base64 character. -/
def encChar (n : Nat) : Char := b64Alphabet.getD n 'A'

/-- Base64 character back to its sextet (the arithmetic form of the standard
table; non-alphabet characters map to 0, irrelevant on encoder output). -/
def decVal (c : Char) : Nat :=
  if 65 ≤ c.toNat ∧ c.toNat ≤ 90 then c.toNat - 65
  else if 97 ≤ c.toNat ∧ c.toNat ≤ 122 then c.toNat - 71
  else if 48 ≤ c.toNat ∧ c.toNat ≤ 57 then c.toNat + 4
  else if c = '+' then 62
  else if c = '/' then 63
  else 0

/-- Standard base64 of a sequence of char codes (each below 256): groups of
three codes become four alphabet characters, a trailing group of one or two
codes is padded with `=`. This is `btoa`. -/
def b64Encode : List Nat → List Char
  | [] => []
  | [a] => [encChar (a / 4), encChar (a % 4 * 16), '=', '=']
  | [a, b] => [encChar (a / 4), encChar (a % 4 * 16 + b / 16), encChar (b % 16 * 4), '=']
  | a :: b :: c :: rest =>
    encChar (a / 4) :: encChar (a % 4 * 16 + b / 16) ::
    encChar (b % 16 * 4 + c / 64) :: encChar (c % 64) :: b64Encode rest

/-- First byte of a decoded base64 quantum. -/
def deByte1 (w x : Char) : Nat := decVal w * 4 + decVal x / 16

/-- Second byte of a decoded base64 quantum. -/
def deByte2 (x y : Char) : Nat := decVal x % 16 * 16 + decVal y / 4

/-- Third byte of a decoded base64 quantum. -/
def deByte3 (y z : Char) : Nat := decVal y % 4 * 64 + decVal z

/-- Standard base64 decoding (`atob`) on well-padded input: four characters
at a time, with `=` padding ending the data. -/
def b64Decode : List Char → List Nat
  | w :: x :: y :: z :: rest =>
    if y = '=' then [deByte1 w x]
    else if z = '=' then [deByte1 w x, deByte2 x y]
    else deByte1 w x :: deByte2 x y :: deByte3 y z :: b64Decode rest
  | _ => []

/-- `btoa`: base64 over the char codes of the binary string. -/
def btoa (codes : List Nat) : List Char := b64Encode codes

/-- The whole encoder of `src/index.js` lines 288-296: chunked
`String.fromCharCode` accumulation followed by one `btoa` over the result. -/
def encodeImageBytes (bytes : List Nat) : List Char := btoa (binaryChunked bytes)

/-! ### The SSE decoder loop shared by `part_000` and `part_001` -/

/-- The mutable state of the stream-reading loop of
`src/unnamed/part_000` lines 151-154 (`part_001` has the same two result
variables and no status variable; its status field is simply unused there). -/
structure LoopState where
  imageUrl : Option String
  errorMessage : Option String
  statusVar : String
deriving DecidableEq

/-- `let imageUrl = null; let errorMessage = null; let status = 'processing'`. -/
def initState : LoopState := ⟨none, none, "processing"⟩

/-- Classification of one complete line by the record handler. -/
inductive LineEvent where
  | complete (u : String)
  | error (m : String)
  | processing
  | skip
deriving DecidableEq

/-- The terminal outcome the worker derives from the loop state once the
stream has ended. -/
inductive Outcome where
  | success (u : String)
  | error (m : String)
  | noResult
deriving DecidableEq

/-- The char list of the SSE record marker `"data: "`. -/
def dataMarker : List Char := "data: ".data

/-- The checks after the loop of `part_000` lines 188-214:
`if (errorMessage) ...; if (!imageUrl) ...; else success` (`part_001`
lines 94-112 are identical up to the envelope texts). -/
def outcomeOf (st : LoopState) : Outcome :=
  if truthyStr st.errorMessage then .error (st.errorMessage.getD "")
  else if truthyStr st.imageUrl = false then .noResult
  else .success (st.imageUrl.getD "")

namespace Subnp

/-- `part_000` lines 166-184: a line is significant when it carries the
`"data: "` marker and its remainder parses as JSON; the parsed record is
classified by its `status` field, with the error message defaulting via
`data.message || 'Unknown error from SubNP'`. -/
def lineEvent (l : List Char) : LineEvent :=
  if dataMarker.isPrefixOf l then
    match parseJsonFlat (l.drop 6) with
    | none => .skip
    | some o =>
      if lookupStr o "status" = some "complete" ∧ truthyStr (lookupStr o "imageUrl") = true then
        .complete ((lookupStr o "imageUrl").getD "")
      else if lookupStr o "status" = some "error" then
        .error (if truthyStr (lookupStr o "message") then (lookupStr o "message").getD ""
                else "Unknown error from SubNP")
      else if lookupStr o "status" = some "processing" then .processing
      else .skip
  else .skip

/-- Effect of one complete line on the loop variables (`part_000`
lines 166-184). -/
def processLine (st : LoopState) (l : List Char) : LoopState :=
  match lineEvent l with
  | .complete u => { st with imageUrl := some u, statusVar := "completed" }
  | .error m => { st with errorMessage := some m, statusVar := "error" }
  | .processing => { st with statusVar := "processing" }
  | .skip => st

/-- The whole read loop of `part_000` lines 157-186: fold the chunk step
over the arriving chunks, starting from the fresh state and empty buffer. -/
def runFull (chunks : List (List Char)) : LoopState × List Char :=
  chunks.foldl (chunkFold processLine) (initState, [])

/-- Terminal outcome of the decoder on a finite chunk stream. -/
def runDecoder (chunks : List (List Char)) : Outcome :=
  outcomeOf (runFull chunks).1

end Subnp

namespace Subnp

/-- Request body after `await request.json()` succeeded:
`const { prompt, model = 'turbo' } = body`. -/
structure BodyIn where
  prompt : Option String
  model : Option String
deriving DecidableEq

/-- Inbound POST body: `Except.error m` models `request.json()` throwing
with message `m`. -/
structure GenInput where
  body : Except String BodyIn
deriving DecidableEq

/-- A received endpoint response retained in `apiResponse`. -/
structure Resp3 where
  status : Nat
  chunks : List (List Char)
  text : String
deriving DecidableEq

/-- The two fixed candidate endpoints (`part_000` lines 89-92). -/
def apiUrl1 : String := "https://t2i.mcpcore.xyz/api/free/generate"

/-- Second candidate endpoint. -/
def apiUrl2 : String := "https://subnp.com/api/free/generate"

/-- `const apiUrls = [...]`. -/
def apiUrls : List String := [apiUrl1, apiUrl2]

/-- The `for (const apiUrl of apiUrls)` loop of `part_000` lines 98-124,
carrying the current `apiResponse` and `lastError`; returns them along with
the list of endpoints actually fetched. Breaks on any response whose status
is success-range or differs from 404; a 404 or a thrown fetch advances to
the next candidate (recording `lastError`), keeping the 404 response in
`apiResponse`. -/
def tryLoop (f : String → FetchOut) :
    List String → Option Resp3 → Option String →
    Option Resp3 × Option String × List String
  | [], api, le => (api, le, [])
  | u :: rest, api, le =>
    match f u with
    | .threw m =>
      let r := tryLoop f rest api (some m)
      (r.1, r.2.1, u :: r.2.2)
    | .resp s ch tx =>
      if isOkStatus s then (some ⟨s, ch, tx⟩, le, [u])
      else if s ≠ 404 then (some ⟨s, ch, tx⟩, le, [u])
      else
        let r := tryLoop f rest (some ⟨s, ch, tx⟩) (some ("404 from " ++ u))
        (r.1, r.2.1, u :: r.2.2)

/-- Outbound JSON body shape of `part_000`; the envelopes returned to the
caller. Constant fields of the source envelopes (`suggestion`, `version`,
`status:'completed'`) are fixed literals and are not repeated in the model;
`statusField` is the variable `status` member, `debugStatus` and
`debugTried` the members of the `debug` object of the endpoint-error
envelope. -/
inductive SBody where
  | empty
  | err (error : String) (details : Option String) (statusField : Option String)
      (debugStatus : Option String) (debugTried : Option (List String))
  | success (imageUrl : String) (provider : String)
deriving DecidableEq

/-- An HTTP response of the `part_000` worker. -/
structure SResponse where
  status : Nat
  body : SBody
deriving DecidableEq

/-- The post-loop envelopes of `part_000` lines 188-227 for a consumed
stream. -/
def sseEnvelope : Outcome → SResponse
  | .error m => ⟨200, .err m none (some "error") none none⟩
  | .noResult => ⟨200, .err "No image URL received from SubNP" none (some "error") none none⟩
  | .success u => ⟨200, .success u "subnp"⟩

/-- `generateImage` (`part_000` lines 55-242). Besides the response it
returns the trimmed prompt text sent outbound (`none` when no backend call
was made) and the list of endpoints fetched. -/
def generateImage (f : String → FetchOut) (inp : GenInput) :
    SResponse × Option String × List String :=
  match inp.body with
  | .error m => (⟨200, .err "Invalid JSON in request body" (some m) none none none⟩, none, [])
  | .ok b =>
    if truthyStr b.prompt = false then
      (⟨200, .err "Prompt is required" none none none none⟩, none, [])
    else
      match tryLoop f apiUrls none none with
      | (some resp, _, att) =>
        if isOkStatus resp.status then
          (sseEnvelope (runDecoder resp.chunks), some (jsTrim (b.prompt.getD "")), att)
        else
          (⟨200, .err ("SubNP API error: " ++ toString resp.status) (some resp.text)
              none (some (toString resp.status)) (some apiUrls)⟩,
            some (jsTrim (b.prompt.getD "")), att)
      | (none, le, att) =>
        (⟨200, .err "SubNP API error: Connection failed"
            (some (if truthyStr le then le.getD "" else "All endpoints failed"))
            none (some "Connection failed") (some apiUrls)⟩,
          some (jsTrim (b.prompt.getD "")), att)

/-- An inbound request to the `part_000` worker. -/
structure Request where
  method : String
  gen : GenInput
deriving DecidableEq

/-- `handleRequest` (`part_000` lines 28-53): OPTIONS preflight, POST to
`generateImage`, otherwise 405. -/
def handleRequest (f : String → FetchOut) (req : Request) : SResponse :=
  if req.method = "OPTIONS" then ⟨204, .empty⟩
  else if req.method = "POST" then (generateImage f req.gen).1
  else ⟨405, .err "Method not allowed" none none none none⟩

end Subnp

namespace Horde

/-- Outcome of an outbound JSON `fetch`: rejected promise, or a response
with transport status, `text()` body and the value `json()` resolves to
(`Except.error m` when `json()` would throw with message `m`). -/
inductive JFetch (α : Type) where
  | threw (msg : String)
  | resp (status : Nat) (text : String) (json : Except String α)

/-- `statusData` of the check call (`/generate/check/`). -/
structure CheckData where
  faulted : Bool
  done : Bool
  queuePosition : Option Nat
  waitTime : Option Nat
deriving DecidableEq

/-- One element of `resultData.generations`. -/
structure Gen where
  img : Option String
deriving DecidableEq

/-- `resultData` of the status call (`/generate/status/`). -/
structure ResultData where
  generations : Option (List Gen)
deriving DecidableEq

/-- Outcome of the raw image `fetch`: the content-type header (absent =
`null`) and the body bytes of `arrayBuffer()`; `threw` covers a rejection
of either the fetch or the buffer read. -/
inductive ImgFetch where
  | threw (msg : String)
  | resp (status : Nat) (contentType : Option String) (bytes : List Nat)
deriving DecidableEq

/-- Oracles for the four outbound calls of `src/index.js`: the generate
submission, the check poll, the result fetch, and the image download
(keyed by its URL). -/
structure Env where
  submit : JFetch (Option String)
  check : JFetch CheckData
  result : JFetch ResultData
  image : String → ImgFetch

/-- Body shapes of `src/index.js` envelopes: `err` carries the `error`
member, the optional `details` member and the optional `status` string
member; `details` values that the source fills with `JSON.stringify` of a
whole backend payload are modelled as `none`. -/
inductive HBody where
  | empty
  | err (error : String) (details : Option String) (statusField : Option String)
  | processing (queuePosition : Nat) (waitTime : Nat)
  | submitted (requestId : String)
  | success (imageUrl : String) (provider : String)
deriving DecidableEq

/-- An HTTP response of the `src/index.js` worker. -/
structure HResponse where
  status : Nat
  body : HBody
deriving DecidableEq

/-- `error.message || 'Unknown error occurred'` of the catch-all blocks. -/
def orUnknown (m : String) : String := if m = "" then "Unknown error occurred" else m

/-- `contentType = imageResponse.headers.get('content-type') || 'image/png'`. -/
def mimeOf (ct : Option String) : String :=
  match ct with
  | some c => if c = "" then "image/png" else c
  | none => "image/png"

/-- `src/index.js` lines 263-325: turn `generations[0].img` into a data
URL — a remote URL is fetched and its bytes chunk-encoded to base64 with
the response content type, anything else is wrapped directly as
already-encoded `image/png` data. -/
def resolveImage (image : String → ImgFetch) (imageData : String) : HResponse :=
  if startsWithStr imageData "http://" || startsWithStr imageData "https://" then
    match image imageData with
    | .threw m => ⟨200, .err "Failed to fetch and convert image" (some m) (some "error")⟩
    | .resp s ct bytes =>
      if isOkStatus s then
        ⟨200, .success ("data:" ++ mimeOf ct ++ ";base64," ++ String.mk (encodeImageBytes bytes))
            "aihorde"⟩
      else ⟨200, .err "Failed to fetch generated image" (some ("HTTP " ++ toString s)) (some "error")⟩
  else ⟨200, .success ("data:image/png;base64," ++ imageData) "aihorde"⟩

/-- `checkStatus` (`src/index.js` lines 182-353). The `requestId` only
feeds the outbound URLs, which the oracles abstract, so it is not a
parameter of the model. -/
def checkStatus (env : Env) : HResponse :=
  match env.check with
  | .threw m => ⟨200, .err (orUnknown m) none (some "error")⟩
  | .resp s _ j =>
    if isOkStatus s = false then
      ⟨200, .err ("Failed to check status: " ++ toString s) none (some "error")⟩
    else
      match j with
      | .error m => ⟨200, .err (orUnknown m) none (some "error")⟩
      | .ok cd =>
        if cd.faulted then
          ⟨200, .err "Image generation failed on AI Horde" (some "true") (some "failed")⟩
        else if cd.done = false then
          ⟨200, .processing (cd.queuePosition.getD 0) (cd.waitTime.getD 0)⟩
        else
          match env.result with
          | .threw m => ⟨200, .err (orUnknown m) none (some "error")⟩
          | .resp s2 _ j2 =>
            if isOkStatus s2 = false then
              ⟨200, .err "Failed to get generation result" (some ("Status: " ++ toString s2))
                  (some "error")⟩
            else
              match j2 with
              | .error m => ⟨200, .err (orUnknown m) none (some "error")⟩
              | .ok rd =>
                match rd.generations with
                | some (g :: _) =>
                  if truthyStr g.img then resolveImage env.image (g.img.getD "")
                  else ⟨200, .err "No image in generation result" none (some "error")⟩
                | some [] => ⟨200, .err "No image in generation result" none (some "error")⟩
                | none => ⟨200, .err "No image in generation result" none (some "error")⟩

/-- Parsed inbound POST body of `src/index.js`: `const { prompt } = body`. -/
structure BodyIn where
  prompt : Option String
deriving DecidableEq

/-- Inbound POST body: `Except.error m` models `request.json()` throwing. -/
structure SubmitInput where
  body : Except String BodyIn
deriving DecidableEq

/-- `submitRequest` (`src/index.js` lines 58-180). The second component is
the trimmed prompt text sent to the backend, `none` when no backend call
was made. -/
def submitRequest (env : Env) (inp : SubmitInput) : HResponse × Option String :=
  match inp.body with
  | .error m => (⟨200, .err "Invalid JSON in request body" (some m) none⟩, none)
  | .ok b =>
    if truthyStr b.prompt = false then
      (⟨200, .err "Prompt is required" none none⟩, none)
    else
      let p := jsTrim (b.prompt.getD "")
      match env.submit with
      | .threw m => (⟨200, .err (orUnknown m) none none⟩, some p)
      | .resp s tx j =>
        if isOkStatus s = false then
          (⟨200, .err ("AI Horde submission failed: " ++ toString s) (some tx) none⟩, some p)
        else
          match j with
          | .error m => (⟨200, .err (orUnknown m) none none⟩, some p)
          | .ok idOpt =>
            if truthyStr idOpt then (⟨200, .submitted (idOpt.getD "")⟩, some p)
            else (⟨200, .err "No request ID returned from AI Horde" none none⟩, some p)

/-- An inbound request to the `src/index.js` worker: method, the
`requestId` query parameter (`searchParams.get` yields `null` or a
string), and the POST body. -/
structure Request where
  method : String
  requestId : Option String
  submitIn : SubmitInput
deriving DecidableEq

/-- `handleRequest` (`src/index.js` lines 23-56): OPTIONS preflight, GET
with a truthy `requestId` polls, POST submits, anything else is 405. -/
def handleRequest (env : Env) (req : Request) : HResponse :=
  if req.method = "OPTIONS" then ⟨204, .empty⟩
  else if req.method = "GET" ∧ truthyStr req.requestId = true then checkStatus env
  else if req.method = "POST" then (submitRequest env req.submitIn).1
  else ⟨405, .err "Method not allowed" none none⟩

end Horde

namespace Proxy

/-- `part_001` lines 78-90: same `"data: "` framing, but the record
handler has no `processing` branch and the error message defaults via
`data.message || 'Unknown error'`. -/
def lineEvent (l : List Char) : LineEvent :=
  if dataMarker.isPrefixOf l then
    match parseJsonFlat (l.drop 6) with
    | none => .skip
    | some o =>
      if lookupStr o "status" = some "complete" ∧ truthyStr (lookupStr o "imageUrl") = true then
        .complete ((lookupStr o "imageUrl").getD "")
      else if lookupStr o "status" = some "error" then
        .error (if truthyStr (lookupStr o "message") then (lookupStr o "message").getD ""
                else "Unknown error")
      else .skip
  else .skip

/-- Effect of one complete line on the loop variables of `part_001`
(the `statusVar` field is unused by this variant). -/
def processLine (st : LoopState) (l : List Char) : LoopState :=
  match lineEvent l with
  | .complete u => { st with imageUrl := some u }
  | .error m => { st with errorMessage := some m }
  | _ => st

/-- The read loop of `part_001` lines 70-92. -/
def runDecoder (chunks : List (List Char)) : Outcome :=
  outcomeOf (chunks.foldl (chunkFold processLine) (initState, [])).1

/-- Body shapes of `part_001` responses; the 405 branch returns a plain
(non-JSON) text body. -/
inductive PBody where
  | empty
  | plain (text : String)
  | err (error : String) (details : Option String)
  | success (imageUrl : String)
deriving DecidableEq

/-- An HTTP response of the `part_001` worker. -/
structure PResponse where
  status : Nat
  body : PBody
deriving DecidableEq

/-- An inbound request to the `part_001` worker. The single outbound fetch
is the worker's one backend call. -/
structure Request where
  method : String
  body : Except String Subnp.BodyIn
deriving DecidableEq

/-- `handleRequest` (`src/unnamed/part_001` lines 9-131). Unlike the other
two workers this variant reports semantic failures with non-success
transport statuses: 400 for a missing prompt, the backend status for a
failed backend response, 500 for stream errors, missing results and caught
exceptions. -/
def handleRequest (f : FetchOut) (req : Request) : PResponse :=
  if req.method = "OPTIONS" then ⟨204, .empty⟩
  else if req.method ≠ "POST" then ⟨405, .plain "Method not allowed"⟩
  else
    match req.body with
    | .error m => ⟨500, .err m none⟩
    | .ok b =>
      if truthyStr b.prompt = false then ⟨400, .err "Prompt is required" none⟩
      else
        match f with
        | .threw m => ⟨500, .err m none⟩
        | .resp s chunks text =>
          if isOkStatus s = false then ⟨s, .err ("API error: " ++ toString s) (some text)⟩
          else
            match runDecoder chunks with
            | .error m => ⟨500, .err m none⟩
            | .noResult => ⟨500, .err "No image URL received" none⟩
            | .success u => ⟨200, .success u⟩

end Proxy

/-! ### Structural lemmas about the chunked line framing -/

/-- Splitting a concatenation: the complete lines of `x ++ y` are the
complete lines of `x` followed by those of `x`'s trailing fragment glued
to `y`, and the trailing fragment is the latter split's fragment. -/
theorem splitNl_append (x y : List Char) :
    splitNl (x ++ y) =
      ((splitNl x).1 ++ (splitNl ((splitNl x).2 ++ y)).1,
       (splitNl ((splitNl x).2 ++ y)).2) := by
  induction x with
  | nil => simp [splitNl]
  | cons c cs ih =>
    by_cases hc : c = '\n'
    · subst hc
      simp [splitNl, ih]
    · rw [List.cons_append, splitNl, splitNl, if_neg hc, if_neg hc, ih]
      cases h : (splitNl cs).1 with
      | nil =>
        simp only [h, List.nil_append]
        cases hB : (splitNl ((splitNl cs).2 ++ y)).1 with
        | nil => simp [splitNl, if_neg hc, hB]
        | cons b bs => simp [splitNl, if_neg hc, hB]
      | cons a as => simp [h]

/-- Feeding two chunks one after the other equals feeding their
concatenation: the loop step is compatible with chunk concatenation. -/
theorem chunkFold_append {α : Type} (pl : α → List Char → α) (p : α × List Char)
    (a b : List Char) :
    chunkFold pl (chunkFold pl p a) b = chunkFold pl p (a ++ b) := by
  simp only [chunkFold]
  rw [← List.append_assoc, splitNl_append (p.2 ++ a) b]
  simp [List.foldl_append]

/-- Folding the loop step over a nonempty chunk list equals one step on the
concatenation of the chunks. -/
theorem foldl_chunkFold_cons {α : Type} (pl : α → List Char → α) :
    ∀ (cs : List (List Char)) (p : α × List Char) (c : List Char),
      List.foldl (chunkFold pl) p (c :: cs) = chunkFold pl p (c ++ cs.flatten) := by
  intro cs
  induction cs with
  | nil => intro p c; simp [chunkFold]
  | cons c2 cs ih =>
    intro p c
    rw [List.foldl_cons, ih (chunkFold pl p c) c2, chunkFold_append]
    simp

/-- The whole `part_000` read loop equals one loop step on the
concatenated stream text. -/
theorem Subnp.runFull_flatten (chunks : List (List Char)) :
    Subnp.runFull chunks = chunkFold Subnp.processLine (initState, []) chunks.flatten := by
  cases chunks with
  | nil => rfl
  | cons c cs => exact foldl_chunkFold_cons _ cs _ c

/-! ### Spec-side characterization of the decoder (§4.2 of the spec) -/

/-- The last error message among a sequence of record events (spec §4.2
step 5: the decoder "reports the last terminal record seen"); the
accumulator is exposed for the fold invariant. -/
def lastErrAux (a : Option String) (es : List LineEvent) : Option String :=
  es.foldl (fun a e => match e with | .error m => some m | _ => a) a

/-- The last success image reference among a sequence of record events. -/
def lastUrlAux (a : Option String) (es : List LineEvent) : Option String :=
  es.foldl (fun a e => match e with | .complete u => some u | _ => a) a

/-- The spec's wording of the terminal outcome (§4.2 step 5): error takes
precedence if both terminal records appeared (with the last error
message), else success with the last complete record's image reference,
else no result. -/
def specTerminalOutcome (lines : List (List Char)) : Outcome :=
  match lastErrAux none (lines.map Subnp.lineEvent) with
  | some m => .error m
  | none =>
    match lastUrlAux none (lines.map Subnp.lineEvent) with
    | some u => .success u
    | none => .noResult

/-- `processLine` touches `errorMessage` exactly on error records. -/
theorem Subnp.processLine_errorMessage (st : LoopState) (l : List Char) :
    (Subnp.processLine st l).errorMessage =
      (match Subnp.lineEvent l with
       | .error m => some m
       | _ => st.errorMessage) := by
  cases h : Subnp.lineEvent l <;> simp [Subnp.processLine, h]

/-- `processLine` touches `imageUrl` exactly on complete records. -/
theorem Subnp.processLine_imageUrl (st : LoopState) (l : List Char) :
    (Subnp.processLine st l).imageUrl =
      (match Subnp.lineEvent l with
       | .complete u => some u
       | _ => st.imageUrl) := by
  cases h : Subnp.lineEvent l <;> simp [Subnp.processLine, h]

/-- After folding the line handler, `errorMessage` holds the last error
message. -/
theorem Subnp.foldl_errorMessage (lines : List (List Char)) :
    ∀ st : LoopState,
      (List.foldl Subnp.processLine st lines).errorMessage =
        lastErrAux st.errorMessage (lines.map Subnp.lineEvent) := by
  induction lines with
  | nil => intro st; rfl
  | cons l ls ih =>
    intro st
    rw [List.foldl_cons, ih, List.map_cons]
    rw [Subnp.processLine_errorMessage]
    cases h : Subnp.lineEvent l <;> simp [lastErrAux, h]

/-- After folding the line handler, `imageUrl` holds the last success
image reference. -/
theorem Subnp.foldl_imageUrl (lines : List (List Char)) :
    ∀ st : LoopState,
      (List.foldl Subnp.processLine st lines).imageUrl =
        lastUrlAux st.imageUrl (lines.map Subnp.lineEvent) := by
  induction lines with
  | nil => intro st; rfl
  | cons l ls ih =>
    intro st
    rw [List.foldl_cons, ih, List.map_cons]
    rw [Subnp.processLine_imageUrl]
    cases h : Subnp.lineEvent l <;> simp [lastUrlAux, h]

/-- An error record's message is never the empty string (the handler
substitutes the default `'Unknown error from SubNP'` for falsy messages). -/
theorem Subnp.lineEvent_error_ne (l : List Char) (m : String) :
    Subnp.lineEvent l = .error m → m ≠ "" := by
  intro h
  unfold Subnp.lineEvent at h
  split at h
  · split at h
    · exact absurd h (by simp)
    · split at h
      · exact absurd h (by simp)
      · split at h
        · rw [LineEvent.error.injEq] at h
          subst h
          split
          · rename_i ht
            cases hm : lookupStr _ "message" with
            | none => rw [hm] at ht; simp [truthyStr] at ht
            | some s =>
              rw [hm] at ht
              simp only [truthyStr] at ht
              simp [hm, Option.getD]
              exact of_decide_eq_true ht
          · simp
        · split at h
          · exact absurd h (by simp)
          · exact absurd h (by simp)
  · exact absurd h (by simp)

/-- A complete record's image reference is never the empty string (the
handler requires `data.imageUrl` to be truthy). -/
theorem Subnp.lineEvent_complete_ne (l : List Char) (u : String) :
    Subnp.lineEvent l = .complete u → u ≠ "" := by
  intro h
  unfold Subnp.lineEvent at h
  split at h
  · split at h
    · exact absurd h (by simp)
    · split at h
      · rw [LineEvent.complete.injEq] at h
        subst h
        rename_i hcond
        obtain ⟨-, ht⟩ := hcond
        cases hm : lookupStr _ "imageUrl" with
        | none => rw [hm] at ht; simp [truthyStr] at ht
        | some s =>
          rw [hm] at ht
          simp only [truthyStr] at ht
          simp [hm, Option.getD]
          exact of_decide_eq_true ht
      · split at h
        · exact absurd h (by simp)
        · split at h
          · exact absurd h (by simp)
          · exact absurd h (by simp)
  · exact absurd h (by simp)

/-- `lastErrAux` only yields messages that were present (nonempty when all
error events carry nonempty messages). -/
theorem lastErrAux_ne :
    ∀ (es : List LineEvent) (a : Option String),
      (∀ m, a = some m → m ≠ "") →
      (∀ e ∈ es, ∀ m, e = .error m → m ≠ "") →
      ∀ m, lastErrAux a es = some m → m ≠ "" := by
  intro es
  induction es with
  | nil => intro a ha _ m hm; exact ha m hm
  | cons e es ih =>
    intro a ha hes m hm
    rw [lastErrAux] at hm
    rw [List.foldl_cons] at hm
    refine ih _ ?_ (fun e' he' => hes e' (List.mem_cons_of_mem _ he')) m hm
    intro m' hm'
    cases e with
    | error m0 =>
      simp at hm'
      subst hm'
      exact hes _ (List.mem_cons_self _ _) _ rfl
    | complete u => exact ha m' hm'
    | processing => exact ha m' hm'
    | skip => exact ha m' hm'

/-- `lastUrlAux` only yields image references that were present. -/
theorem lastUrlAux_ne :
    ∀ (es : List LineEvent) (a : Option String),
      (∀ u, a = some u → u ≠ "") →
      (∀ e ∈ es, ∀ u, e = .complete u → u ≠ "") →
      ∀ u, lastUrlAux a es = some u → u ≠ "" := by
  intro es
  induction es with
  | nil => intro a ha _ u hu; exact ha u hu
  | cons e es ih =>
    intro a ha hes u hu
    rw [lastUrlAux] at hu
    rw [List.foldl_cons] at hu
    refine ih _ ?_ (fun e' he' => hes e' (List.mem_cons_of_mem _ he')) u hu
    intro u' hu'
    cases e with
    | complete u0 =>
      simp at hu'
      subst hu'
      exact hes _ (List.mem_cons_self _ _) _ rfl
    | error m => exact ha u' hu'
    | processing => exact ha u' hu'
    | skip => exact ha u' hu'

/-- C2: for every finite event stream the decoder of `part_000` consumes
the whole stream and reports exactly the spec's terminal outcome over the
stream's complete lines — the last error record's message when any error
record appeared (error takes precedence over a complete record regardless
of order), else the last complete record's image reference, else no
result. -/
theorem subnp_decoder_reports_last_terminal (chunks : List (List Char)) :
    Subnp.runDecoder chunks = specTerminalOutcome (splitNl chunks.flatten).1 := by
  rw [Subnp.runDecoder, Subnp.runFull_flatten]
  show outcomeOf (List.foldl Subnp.processLine initState (splitNl ([] ++ chunks.flatten)).1) = _
  rw [List.nil_append]
  set lines := (splitNl chunks.flatten).1 with hl
  have herr := Subnp.foldl_errorMessage lines initState
  have hurl := Subnp.foldl_imageUrl lines initState
  have hene : ∀ e ∈ lines.map Subnp.lineEvent, ∀ m, e = .error m → m ≠ "" := by
    intro e he m hme
    obtain ⟨l, -, rfl⟩ := List.mem_map.mp he
    exact Subnp.lineEvent_error_ne l m hme
  have hune : ∀ e ∈ lines.map Subnp.lineEvent, ∀ u, e = .complete u → u ≠ "" := by
    intro e he u hue
    obtain ⟨l, -, rfl⟩ := List.mem_map.mp he
    exact Subnp.lineEvent_complete_ne l u hue
  rw [outcomeOf, herr, hurl]
  rw [show initState.errorMessage = none from rfl, show initState.imageUrl = none from rfl]
  cases he : lastErrAux none (lines.map Subnp.lineEvent) with
  | some m =>
    have hm : m ≠ "" := lastErrAux_ne _ none (by simp) hene m he
    simp [truthyStr, hm, specTerminalOutcome, he]
  | none =>
    cases hu : lastUrlAux none (lines.map Subnp.lineEvent) with
    | some u =>
      have hun : u ≠ "" := lastUrlAux_ne _ none (by simp) hune u hu
      simp [truthyStr, hun, specTerminalOutcome, he, hu]
    | none => simp [truthyStr, specTerminalOutcome, he, hu]

/-! ### Transport status lemmas -/

/-- Every branch of the image-normalization step answers 200. -/
theorem Horde.resolveImage_status (image : String → Horde.ImgFetch) (d : String) :
    (Horde.resolveImage image d).status = 200 := by
  unfold Horde.resolveImage
  split
  · rcases image d with m | ⟨s, ct, bytes⟩
    · rfl
    · dsimp only
      split <;> rfl
  · rfl

/-- Every branch of the poll operation answers 200. -/
theorem Horde.checkStatus_status (env : Horde.Env) :
    (Horde.checkStatus env).status = 200 := by
  unfold Horde.checkStatus
  rcases env.check with m | ⟨s, tx, j⟩
  · rfl
  · dsimp only
    split
    · rfl
    · rcases j with m | cd
      · rfl
      · dsimp only
        split
        · rfl
        · split
          · rfl
          · rcases env.result with m | ⟨s2, tx2, j2⟩
            · rfl
            · dsimp only
              split
              · rfl
              · rcases j2 with m | rd
                · rfl
                · dsimp only
                  rcases rd.generations with - | (- | ⟨g, gs⟩)
                  · rfl
                  · rfl
                  · dsimp only
                    split
                    · exact Horde.resolveImage_status _ _
                    · rfl

/-- Every branch of the submit operation answers 200. -/
theorem Horde.submitRequest_status (env : Horde.Env) (inp : Horde.SubmitInput) :
    ((Horde.submitRequest env inp).1).status = 200 := by
  unfold Horde.submitRequest
  rcases inp.body with m | b
  · rfl
  · dsimp only
    split
    · rfl
    · rcases env.submit with m | ⟨s, tx, j⟩
      · rfl
      · dsimp only
        split
        · rfl
        · rcases j with m | idOpt
          · rfl
          · dsimp only
            split <;> rfl

/-- Every post-stream envelope of `part_000` answers 200. -/
theorem Subnp.sseEnvelope_status (o : Outcome) : (Subnp.sseEnvelope o).status = 200 := by
  cases o <;> rfl

/-- Every branch of `generateImage` answers 200. -/
theorem Subnp.generateImage_status (f : String → FetchOut) (inp : Subnp.GenInput) :
    ((Subnp.generateImage f inp).1).status = 200 := by
  unfold Subnp.generateImage
  rcases inp.body with m | b
  · rfl
  · dsimp only
    split
    · rfl
    · rcases h : Subnp.tryLoop f Subnp.apiUrls none none with ⟨api, le, att⟩
      rcases api with - | resp
      · rfl
      · dsimp only
        split
        · exact Subnp.sseEnvelope_status _
        · rfl

/-- C1 (amended): in the `src/index.js` and `part_000` workers the
transport status is exactly 204 for an OPTIONS preflight, 405 for a
request served by no operation, and 200 for every request that reaches an
operation — including every semantic failure (invalid JSON body, missing
prompt, backend non-success status, decoder failure, modelled exceptions).
The `part_001` proxy variant is excluded: it answers semantic failures
with 400/500/backend statuses (see the counterexample). -/
theorem transport_status_characterization (env : Horde.Env) (req : Horde.Request)
    (f : String → FetchOut) (sreq : Subnp.Request) :
    (Horde.handleRequest env req).status =
      (if req.method = "OPTIONS" then 204
       else if req.method = "GET" ∧ truthyStr req.requestId = true then 200
       else if req.method = "POST" then 200
       else 405) ∧
    (Subnp.handleRequest f sreq).status =
      (if sreq.method = "OPTIONS" then 204
       else if sreq.method = "POST" then 200
       else 405) := by
  constructor
  · by_cases h1 : req.method = "OPTIONS"
    · simp [Horde.handleRequest, h1]
    · by_cases h2 : req.method = "GET" ∧ truthyStr req.requestId = true
      · simp [Horde.handleRequest, h1, h2, Horde.checkStatus_status]
      · by_cases h3 : req.method = "POST"
        · simp [Horde.handleRequest, h1, h2, h3, Horde.submitRequest_status]
        · simp [Horde.handleRequest, h1, h2, h3]
  · by_cases h1 : sreq.method = "OPTIONS"
    · simp [Subnp.handleRequest, h1]
    · by_cases h2 : sreq.method = "POST"
      · simp [Subnp.handleRequest, h1, h2, Subnp.generateImage_status]
      · simp [Subnp.handleRequest, h1, h2]

/-- C1 (counterexample): in the `part_001` proxy a POST whose JSON body
parses but carries no prompt — a semantic failure, not an OPTIONS
preflight and not an unsupported method — is answered with transport
status 400, not 200. -/
theorem proxy_missing_prompt_status_400 :
    (Proxy.handleRequest (.resp 200 [] "") ⟨"POST", .ok ⟨none, none⟩⟩).status = 400 ∧
    (Proxy.handleRequest (.resp 200 [] "") ⟨"POST", .ok ⟨none, none⟩⟩).body =
      .err "Prompt is required" none := by
  constructor <;> rfl

/-- C7: the decoder outcome of `part_000` depends only on the
concatenated text of the stream, not on how it is cut into chunks: two
chunk lists with the same concatenation leave the loop in the same state
(including the retained unprocessed fragment) and yield the same terminal
outcome. -/
theorem subnp_decoder_chunk_partition_irrelevant (c1 c2 : List (List Char))
    (h : c1.flatten = c2.flatten) :
    Subnp.runFull c1 = Subnp.runFull c2 ∧ Subnp.runDecoder c1 = Subnp.runDecoder c2 := by
  have h1 : Subnp.runFull c1 = Subnp.runFull c2 := by
    rw [Subnp.runFull_flatten, Subnp.runFull_flatten, h]
  exact ⟨h1, by rw [Subnp.runDecoder, Subnp.runDecoder, h1]⟩

/-- A complete-record SSE line used by concrete witnesses. -/
def wCompleteLine : List Char :=
  ("data: \x7b\"status\":\"complete\",\"imageUrl\":\"https://cdn.example.com/img.png\"\x7d\n").data

/-- Witness for C7 at a concrete stream cut in two different ways. -/
theorem subnp_decoder_chunk_partition_irrelevant_witness :
    (([wCompleteLine.take 10, wCompleteLine.drop 10] : List (List Char)).flatten =
      ([wCompleteLine] : List (List Char)).flatten) ∧
    Subnp.runDecoder [wCompleteLine.take 10, wCompleteLine.drop 10] =
      Subnp.runDecoder [wCompleteLine] :=
  ⟨by simp, (subnp_decoder_chunk_partition_irrelevant _ _ (by simp)).2⟩

/-! ### Base64 round-trip -/

/-- Decoding inverts the base64 character table on sextets. -/
theorem decVal_encChar : ∀ n, n < 64 → decVal (encChar n) = n := by decide

/-- Alphabet characters are never the padding character. -/
theorem encChar_ne_pad : ∀ n, n < 64 → encChar n ≠ '=' := by decide

/-- Base64 decoding inverts base64 encoding on byte sequences. -/
theorem b64_roundtrip : ∀ bs : List Nat, (∀ b ∈ bs, b < 256) →
    b64Decode (b64Encode bs) = bs
  | [], _ => rfl
  | [a], h => by
    have ha : a < 256 := h a (by simp)
    rw [b64Encode, b64Decode, if_pos rfl, deByte1,
      decVal_encChar _ (by omega), decVal_encChar _ (by omega)]
    have : a / 4 * 4 + a % 4 * 16 / 16 = a := by omega
    rw [this]
  | [a, b], h => by
    have ha : a < 256 := h a (by simp)
    have hb : b < 256 := h b (by simp)
    rw [b64Encode, b64Decode, if_neg (encChar_ne_pad _ (by omega)), if_pos rfl,
      deByte1, deByte2,
      decVal_encChar _ (by omega), decVal_encChar _ (by omega), decVal_encChar _ (by omega)]
    have h1 : a / 4 * 4 + (a % 4 * 16 + b / 16) / 16 = a := by omega
    have h2 : (a % 4 * 16 + b / 16) % 16 * 16 + b % 16 * 4 / 4 = b := by omega
    rw [h1, h2]
  | a :: b :: c :: rest, h => by
    have ha : a < 256 := h a (by simp)
    have hb : b < 256 := h b (by simp)
    have hc : c < 256 := h c (by simp)
    have ih := b64_roundtrip rest (fun x hx => h x (by simp [hx]))
    rw [b64Encode, b64Decode, if_neg (encChar_ne_pad _ (by omega)),
      if_neg (encChar_ne_pad _ (by omega)), deByte1, deByte2, deByte3,
      decVal_encChar _ (by omega), decVal_encChar _ (by omega),
      decVal_encChar _ (by omega), decVal_encChar _ (by omega), ih]
    have h1 : a / 4 * 4 + (a % 4 * 16 + b / 16) / 16 = a := by omega
    have h2 : (a % 4 * 16 + b / 16) % 16 * 16 + (b % 16 * 4 + c / 64) / 4 = b := by omega
    have h3 : (b % 16 * 4 + c / 64) % 4 * 64 + c % 64 = c := by omega
    rw [h1, h2, h3]

/-- The 8192-chunked `String.fromCharCode` accumulation equals applying
`String.fromCharCode` to the whole byte sequence at once. -/
theorem binaryChunked_eq : ∀ bs : List Nat, binaryChunked bs = fromCharCodes bs
  | [] => by rw [binaryChunked]; rfl
  | b :: bs => by
    rw [binaryChunked, binaryChunked_eq ((b :: bs).drop 8192)]
    show fromCharCodes _ ++ fromCharCodes _ = _
    rw [fromCharCodes, fromCharCodes, fromCharCodes, ← List.map_append, List.take_append_drop]
termination_by bs => bs.length
decreasing_by
  simp only [List.length_drop, List.length_cons]
  omega

/-- `String.fromCharCode` is the identity on byte values. -/
theorem fromCharCodes_of_lt (bs : List Nat) (h : ∀ b ∈ bs, b < 256) :
    fromCharCodes bs = bs := by
  rw [fromCharCodes]
  conv_rhs => rw [← List.map_id bs]
  apply List.map_congr_left
  intro b hb
  have := h b hb
  simp
  omega

/-- C6: the Binary Encoder round-trips — for every byte sequence,
base64-decoding the encoder's output yields back exactly the original
bytes — and the chunked 8192-byte processing produces the same text as
encoding the whole sequence at once (`btoa` over the unchunked
`String.fromCharCode` image of the bytes). Both statements are universal
in the byte sequence, so they cover the lengths 0, 1, 8191, 8192, 8193
and 1,000,000 named by the spec. -/
theorem binary_encoder_roundtrip (bs : List Nat) (h : ∀ b ∈ bs, b < 256) :
    b64Decode (encodeImageBytes bs) = bs ∧
    encodeImageBytes bs = btoa (fromCharCodes bs) := by
  have hbc : binaryChunked bs = bs := by rw [binaryChunked_eq, fromCharCodes_of_lt bs h]
  constructor
  · rw [encodeImageBytes, btoa, hbc]
    exact b64_roundtrip bs h
  · rw [encodeImageBytes, binaryChunked_eq]

/-- Witness for C6 at a concrete byte sequence. -/
theorem binary_encoder_roundtrip_witness :
    (∀ b ∈ [0, 1, 255, 77, 200], b < 256) ∧
    b64Decode (encodeImageBytes [0, 1, 255, 77, 200]) = [0, 1, 255, 77, 200] :=
  ⟨by decide, (binary_encoder_roundtrip _ (by decide)).1⟩

/-! ### Prompt validation -/

/-- When the prompt passes the truthiness check, the `src/index.js` submit
path always reaches the backend call with the trimmed prompt. -/
theorem Horde.submitRequest_sent (env : Horde.Env) (p : Option String)
    (hp : truthyStr p = true) :
    (Horde.submitRequest env ⟨.ok ⟨p⟩⟩).2 = some (jsTrim (p.getD "")) := by
  unfold Horde.submitRequest
  dsimp only
  rw [if_neg (by rw [hp]; simp)]
  rcases env.submit with m | ⟨s, tx, j⟩
  · rfl
  · dsimp only
    split
    · rfl
    · rcases j with m | idOpt
      · rfl
      · dsimp only
        split <;> rfl

/-- When the prompt passes the truthiness check, the `part_000` submit
path always reaches the endpoint loop with the trimmed prompt. -/
theorem Subnp.generateImage_sent (f : String → FetchOut) (p mdl : Option String)
    (hp : truthyStr p = true) :
    (Subnp.generateImage f ⟨.ok ⟨p, mdl⟩⟩).2.1 = some (jsTrim (p.getD "")) := by
  unfold Subnp.generateImage
  dsimp only
  rw [if_neg (by rw [hp]; simp)]
  rcases h : Subnp.tryLoop f Subnp.apiUrls none none with ⟨api, le, att⟩
  rcases api with - | resp
  · rfl
  · dsimp only
    split <;> rfl

/-- C4 (amended): in both submit operations the guard is JS truthiness of
the raw prompt, not emptiness after trimming — a prompt that is absent or
the empty string yields the `"Prompt is required"` envelope with no
backend call, while any other prompt (including a whitespace-only one) is
trimmed and sent to the backend (so the sent text can be empty). -/
theorem prompt_check_amended (henv : Horde.Env) (sf : String → FetchOut)
    (p mdl : Option String) :
    (Horde.submitRequest henv ⟨.ok ⟨p⟩⟩).2 =
      (if truthyStr p = true then some (jsTrim (p.getD "")) else none) ∧
    (Horde.submitRequest henv ⟨.ok ⟨none⟩⟩).1 = ⟨200, .err "Prompt is required" none none⟩ ∧
    (Horde.submitRequest henv ⟨.ok ⟨some ""⟩⟩).1 = ⟨200, .err "Prompt is required" none none⟩ ∧
    (Subnp.generateImage sf ⟨.ok ⟨p, mdl⟩⟩).2.1 =
      (if truthyStr p = true then some (jsTrim (p.getD "")) else none) ∧
    (Subnp.generateImage sf ⟨.ok ⟨none, mdl⟩⟩).1 =
      ⟨200, .err "Prompt is required" none none none none⟩ ∧
    (Subnp.generateImage sf ⟨.ok ⟨none, mdl⟩⟩).2.2 = ([] : List String) ∧
    (Subnp.generateImage sf ⟨.ok ⟨some "", mdl⟩⟩).1 =
      ⟨200, .err "Prompt is required" none none none none⟩ := by
  refine ⟨?_, rfl, rfl, ?_, rfl, rfl, rfl⟩
  · by_cases hp : truthyStr p = true
    · rw [if_pos hp, Horde.submitRequest_sent henv p hp]
    · rw [if_neg hp]
      unfold Horde.submitRequest
      dsimp only
      rw [if_pos (by revert hp; cases truthyStr p <;> simp)]
  · by_cases hp : truthyStr p = true
    · rw [if_pos hp, Subnp.generateImage_sent sf p mdl hp]
    · rw [if_neg hp]
      unfold Subnp.generateImage
      dsimp only
      rw [if_pos (by revert hp; cases truthyStr p <;> simp)]

/-- C4 (counterexample): a prompt of a single space is empty after
trimming, yet `src/index.js` performs the backend call — with the empty
trimmed prompt as the sent text — and returns the submitted envelope, not
the `"Prompt is required"` error. -/
theorem whitespace_prompt_counterexample :
    jsTrim " " = "" ∧
    Horde.submitRequest
        ⟨.resp 202 "" (.ok (some "id1")), .threw "x", .threw "x", fun _ => .threw "x"⟩
        ⟨.ok ⟨some " "⟩⟩ =
      (⟨200, .submitted "id1"⟩, some "") := ⟨by decide, by decide⟩

/-! ### Multi-endpoint submit loop -/

/-- C5: the endpoint loop of `part_000` tries the fixed candidate list in
order and advances only on a 404 response: a non-success status other
than 404 from the first endpoint ends the loop at once — the second
endpoint is never fetched — and is surfaced as the result envelope, while
a 404 from the first endpoint followed by a success from the second makes
the final result reflect the second endpoint's stream. -/
theorem multi_endpoint_fallback (f : String → FetchOut) (b : Subnp.BodyIn)
    (s1 s2 : Nat) (ch1 ch2 : List (List Char)) (tx1 tx2 : String)
    (hp : truthyStr b.prompt = true) :
    (f Subnp.apiUrl1 = .resp s1 ch1 tx1 → isOkStatus s1 = false → s1 ≠ 404 →
      Subnp.generateImage f ⟨.ok b⟩ =
        (⟨200, .err ("SubNP API error: " ++ toString s1) (some tx1)
            none (some (toString s1)) (some Subnp.apiUrls)⟩,
          some (jsTrim (b.prompt.getD "")), [Subnp.apiUrl1])) ∧
    (f Subnp.apiUrl1 = .resp 404 ch1 tx1 → f Subnp.apiUrl2 = .resp s2 ch2 tx2 →
      isOkStatus s2 = true →
      Subnp.generateImage f ⟨.ok b⟩ =
        (Subnp.sseEnvelope (Subnp.runDecoder ch2),
          some (jsTrim (b.prompt.getD "")), [Subnp.apiUrl1, Subnp.apiUrl2])) := by
  constructor
  · intro h1 hok h404
    have ht : Subnp.tryLoop f Subnp.apiUrls none none =
        (some ⟨s1, ch1, tx1⟩, none, [Subnp.apiUrl1]) := by
      simp [Subnp.tryLoop, Subnp.apiUrls, h1, hok, h404]
    unfold Subnp.generateImage
    dsimp only
    rw [if_neg (by rw [hp]; simp), ht]
    dsimp only
    rw [if_neg (by rw [hok]; simp)]
  · intro h1 h2 hok
    have ht : Subnp.tryLoop f Subnp.apiUrls none none =
        (some ⟨s2, ch2, tx2⟩, some ("404 from " ++ Subnp.apiUrl1),
          [Subnp.apiUrl1, Subnp.apiUrl2]) := by
      have h404ok : isOkStatus 404 = false := by decide
      simp [Subnp.tryLoop, Subnp.apiUrls, h1, h2, hok, h404ok]
    unfold Subnp.generateImage
    dsimp only
    rw [if_neg (by rw [hp]; simp), ht]
    dsimp only
    rw [if_pos hok]

/-- C10: a thrown fetch (no HTTP response at all) advances the loop to the
next candidate, unlike a non-404 failure status; when every candidate
throws, the error envelope reports `Connection failed` as the status
together with the last thrown message and the endpoint list. -/
theorem network_error_fallback (f : String → FetchOut) (b : Subnp.BodyIn)
    (m1 m2 : String) (s2 : Nat) (ch2 : List (List Char)) (tx2 : String)
    (hp : truthyStr b.prompt = true) :
    (f Subnp.apiUrl1 = .threw m1 → f Subnp.apiUrl2 = .resp s2 ch2 tx2 →
      isOkStatus s2 = true →
      Subnp.generateImage f ⟨.ok b⟩ =
        (Subnp.sseEnvelope (Subnp.runDecoder ch2),
          some (jsTrim (b.prompt.getD "")), [Subnp.apiUrl1, Subnp.apiUrl2])) ∧
    (f Subnp.apiUrl1 = .threw m1 → f Subnp.apiUrl2 = .threw m2 → m2 ≠ "" →
      Subnp.generateImage f ⟨.ok b⟩ =
        (⟨200, .err "SubNP API error: Connection failed" (some m2)
            none (some "Connection failed") (some Subnp.apiUrls)⟩,
          some (jsTrim (b.prompt.getD "")), [Subnp.apiUrl1, Subnp.apiUrl2])) := by
  constructor
  · intro h1 h2 hok
    have ht : Subnp.tryLoop f Subnp.apiUrls none none =
        (some ⟨s2, ch2, tx2⟩, some m1, [Subnp.apiUrl1, Subnp.apiUrl2]) := by
      simp [Subnp.tryLoop, Subnp.apiUrls, h1, h2, hok]
    unfold Subnp.generateImage
    dsimp only
    rw [if_neg (by rw [hp]; simp), ht]
    dsimp only
    rw [if_pos hok]
  · intro h1 h2 hm2
    have ht : Subnp.tryLoop f Subnp.apiUrls none none =
        (none, some m2, [Subnp.apiUrl1, Subnp.apiUrl2]) := by
      simp [Subnp.tryLoop, Subnp.apiUrls, h1, h2]
    unfold Subnp.generateImage
    dsimp only
    rw [if_neg (by rw [hp]; simp), ht]
    dsimp only
    rw [if_pos (by simp [truthyStr, hm2])]
    simp

/-- Endpoint oracle for witnesses: first endpoint answers 500. -/
def wf500 : String → FetchOut :=
  fun u => if u = Subnp.apiUrl1 then .resp 500 [] "boom" else .resp 200 [wCompleteLine] "ok"

/-- Endpoint oracle for witnesses: first endpoint answers 404, second 200. -/
def wf404 : String → FetchOut :=
  fun u => if u = Subnp.apiUrl1 then .resp 404 [] "nf" else .resp 200 [wCompleteLine] "ok"

/-- Endpoint oracle for witnesses: first endpoint throws, second 200. -/
def wfThrow1 : String → FetchOut :=
  fun u => if u = Subnp.apiUrl1 then .threw "err1" else .resp 200 [wCompleteLine] "ok"

/-- Endpoint oracle for witnesses: both endpoints throw. -/
def wfThrow2 : String → FetchOut :=
  fun u => if u = Subnp.apiUrl1 then .threw "err1" else .threw "err2"

/-- Request body used by concrete witnesses. -/
def wBody : Subnp.BodyIn := ⟨some "a red fox", none⟩

/-- Witness for C5 at concrete endpoint oracles. -/
theorem multi_endpoint_fallback_witness :
    truthyStr (some "a red fox") = true ∧
    Subnp.generateImage wf500 ⟨.ok wBody⟩ =
      (⟨200, .err ("SubNP API error: " ++ toString 500) (some "boom")
          none (some (toString 500)) (some Subnp.apiUrls)⟩,
        some (jsTrim "a red fox"), [Subnp.apiUrl1]) ∧
    Subnp.generateImage wf404 ⟨.ok wBody⟩ =
      (Subnp.sseEnvelope (Subnp.runDecoder [wCompleteLine]),
        some (jsTrim "a red fox"), [Subnp.apiUrl1, Subnp.apiUrl2]) :=
  ⟨by decide,
   (multi_endpoint_fallback wf500 wBody 500 0 [] [] "boom" "" (by decide)).1
      (by decide) (by decide) (by decide),
   (multi_endpoint_fallback wf404 wBody 0 200 [] [wCompleteLine] "nf" "ok" (by decide)).2
      (by decide) (by decide) (by decide)⟩

/-- Witness for C10 at concrete endpoint oracles. -/
theorem network_error_fallback_witness :
    Subnp.generateImage wfThrow1 ⟨.ok wBody⟩ =
      (Subnp.sseEnvelope (Subnp.runDecoder [wCompleteLine]),
        some (jsTrim "a red fox"), [Subnp.apiUrl1, Subnp.apiUrl2]) ∧
    Subnp.generateImage wfThrow2 ⟨.ok wBody⟩ =
      (⟨200, .err "SubNP API error: Connection failed" (some "err2")
          none (some "Connection failed") (some Subnp.apiUrls)⟩,
        some (jsTrim "a red fox"), [Subnp.apiUrl1, Subnp.apiUrl2]) :=
  ⟨(network_error_fallback wfThrow1 wBody "err1" "" 200 [wCompleteLine] "ok" (by decide)).1
      (by decide) (by decide) (by decide),
   (network_error_fallback wfThrow2 wBody "err1" "err2" 0 [] "" (by decide)).2
      (by decide) (by decide) (by decide)⟩

/-! ### Malformed-frame tolerance -/

/-- A line without the record marker, or whose payload fails parsing, is
classified as skip. -/
theorem Subnp.lineEvent_skip_of_inert (x : List Char)
    (h : dataMarker.isPrefixOf x = false ∨ parseJsonFlat (x.drop 6) = none) :
    Subnp.lineEvent x = .skip := by
  unfold Subnp.lineEvent
  rcases h with h | h
  · rw [if_neg (by rw [h]; simp)]
  · split
    · rw [h]
    · rfl

/-- Folding the line handler over lines it skips leaves the state alone. -/
theorem Subnp.foldl_inert (xs : List (List Char))
    (h : ∀ x ∈ xs, ∀ st : LoopState, Subnp.processLine st x = st) :
    ∀ s : LoopState, List.foldl Subnp.processLine s xs = s := by
  induction xs with
  | nil => intro s; rfl
  | cons x xs ih =>
    intro s
    rw [List.foldl_cons, h x (by simp) s]
    exact ih (fun x' hx' => h x' (by simp [hx'])) s

/-- C8: malformed data-prefixed lines (whose remainder fails JSON parsing)
and lines without the `"data: "` marker are swallowed without effect on
the loop state, so a stream interleaving them with one valid complete
record still decodes to success with that record's image reference. -/
theorem malformed_lines_skipped (pre post : List (List Char)) (l : List Char) (u : String)
    (hl : Subnp.lineEvent l = .complete u)
    (hin : ∀ x ∈ pre ++ post,
      dataMarker.isPrefixOf x = false ∨ parseJsonFlat (x.drop 6) = none) :
    (∀ x ∈ pre ++ post, ∀ st : LoopState, Subnp.processLine st x = st) ∧
    outcomeOf (List.foldl Subnp.processLine initState (pre ++ l :: post)) = .success u := by
  have hskip : ∀ x ∈ pre ++ post, ∀ st : LoopState, Subnp.processLine st x = st := by
    intro x hx st
    rw [Subnp.processLine, Subnp.lineEvent_skip_of_inert x (hin x hx)]
  refine ⟨hskip, ?_⟩
  rw [List.foldl_append, Subnp.foldl_inert pre
    (fun x hx => hskip x (List.mem_append_left _ hx)) initState]
  rw [List.foldl_cons]
  have hstep : Subnp.processLine initState l = ⟨some u, none, "completed"⟩ := by
    rw [Subnp.processLine, hl]
    rfl
  rw [hstep, Subnp.foldl_inert post
    (fun x hx => hskip x (List.mem_append_right _ hx)) _]
  have hu : u ≠ "" := Subnp.lineEvent_complete_ne l u hl
  simp [outcomeOf, truthyStr, hu]

/-- A complete record line without a trailing newline, for line-level
witnesses. -/
def wCompleteRec : List Char :=
  ("data: \x7b\"status\":\"complete\",\"imageUrl\":\"https://cdn.example.com/img.png\"\x7d").data

/-- A data-prefixed line whose payload fails JSON parsing. -/
def wMalformedLine : List Char := ("data: notjson").data

/-- A line without the `"data: "` marker. -/
def wNoiseLine : List Char := ("event: ping").data

/-- Witness for C8 at a concrete interleaved line list. -/
theorem malformed_lines_skipped_witness :
    Subnp.processLine initState wMalformedLine = initState ∧
    outcomeOf (List.foldl Subnp.processLine initState
      ([wMalformedLine] ++ wCompleteRec :: [wNoiseLine])) =
      .success "https://cdn.example.com/img.png" :=
  ⟨(malformed_lines_skipped [wMalformedLine] [wNoiseLine] wCompleteRec
      "https://cdn.example.com/img.png" (by decide) (by decide)).1
      wMalformedLine (by decide) initState,
   (malformed_lines_skipped [wMalformedLine] [wNoiseLine] wCompleteRec
      "https://cdn.example.com/img.png" (by decide) (by decide)).2⟩

/-! ### MIME type selection in the poll operation -/

/-- C9: when the backend's result payload is inline encoded data (no
`http://`/`https://` scheme), the returned data URI always uses the
hard-coded MIME type `image/png` no matter what the data is; only a
remote URL payload uses the fetched response's content type, which
itself defaults to `image/png` when the header is absent (or empty). -/
theorem mime_type_resolution (image : String → Horde.ImgFetch) (d c : String)
    (s : Nat) (ct : Option String) (bytes : List Nat) :
    (startsWithStr d "http://" = false → startsWithStr d "https://" = false →
      Horde.resolveImage image d =
        ⟨200, .success ("data:image/png;base64," ++ d) "aihorde"⟩) ∧
    ((startsWithStr d "http://" = true ∨ startsWithStr d "https://" = true) →
      image d = .resp s ct bytes → isOkStatus s = true →
      Horde.resolveImage image d =
        ⟨200, .success ("data:" ++ Horde.mimeOf ct ++ ";base64," ++
            String.mk (encodeImageBytes bytes)) "aihorde"⟩) ∧
    Horde.mimeOf none = "image/png" ∧
    (c ≠ "" → Horde.mimeOf (some c) = c) := by
  refine ⟨?_, ?_, rfl, ?_⟩
  · intro h1 h2
    unfold Horde.resolveImage
    rw [if_neg (by rw [h1, h2]; simp)]
  · intro hpre himg hok
    unfold Horde.resolveImage
    rw [if_pos (by rcases hpre with h | h <;> rw [h] <;> simp), himg]
    dsimp only
    rw [if_pos hok]
  · intro hc
    rw [Horde.mimeOf, if_neg hc]

/-- Image oracle for witnesses: 200, no content-type header, three bytes. -/
def wImgOracle : String → Horde.ImgFetch := fun _ => .resp 200 none [1, 2, 3]

/-- Witness for C9 at a concrete inline payload and a concrete URL. -/
theorem mime_type_resolution_witness :
    Horde.resolveImage wImgOracle "iVBORinline" =
      ⟨200, .success ("data:image/png;base64," ++ "iVBORinline") "aihorde"⟩ ∧
    Horde.resolveImage wImgOracle "https://cdn.example.com/img.png" =
      ⟨200, .success ("data:" ++ Horde.mimeOf none ++ ";base64," ++
          String.mk (encodeImageBytes [1, 2, 3])) "aihorde"⟩ :=
  ⟨(mime_type_resolution wImgOracle "iVBORinline" "x" 200 none [1, 2, 3]).1
      (by decide) (by decide),
   (mime_type_resolution wImgOracle "https://cdn.example.com/img.png" "x" 200 none [1, 2, 3]).2.1
      (by decide) (by decide) (by decide)⟩

/-! ### Success envelopes and the data-URI normal form -/

/-- Every success envelope produced by the image-normalization step of
`src/index.js` carries a data URI. -/
theorem Horde.resolveImage_success_form (image : String → Horde.ImgFetch) (d u p : String)
    (h : (Horde.resolveImage image d).body = .success u p) :
    ∃ mime rest, u = "data:" ++ mime ++ ";base64," ++ rest := by
  unfold Horde.resolveImage at h
  split at h
  · rcases himg : image d with m | ⟨s, ct, bytes⟩ <;> rw [himg] at h
    · simp at h
    · dsimp only at h
      split at h
      · refine ⟨Horde.mimeOf ct, String.mk (encodeImageBytes bytes), ?_⟩
        simp only [Horde.HBody.success.injEq] at h
        exact h.1.symm
      · simp at h
  · refine ⟨"image/png", d, ?_⟩
    simp only [Horde.HBody.success.injEq] at h
    rw [← h.1]
    rw [show ("data:" ++ "image/png" ++ ";base64," : String) = "data:image/png;base64,"
      from by decide]

/-- C3 (amended): every success envelope of the two-phase poll operation
(`src/index.js` `checkStatus`) carries an `imageUrl` of the data-URI form
`data:<mime>;base64,<text>`, whether the backend payload was inline
encoded data or a remote URL whose body was fetched and encoded. The
streaming worker `part_000` is excluded: it returns the backend-supplied
`imageUrl` unchanged (see the counterexample). -/
theorem checkstatus_success_is_data_uri (env : Horde.Env) (u p : String)
    (h : (Horde.checkStatus env).body = .success u p) :
    ∃ mime rest, u = "data:" ++ mime ++ ";base64," ++ rest := by
  unfold Horde.checkStatus at h
  rcases hc : env.check with m | ⟨s, tx, j⟩ <;> rw [hc] at h
  · simp at h
  · dsimp only at h
    split at h
    · simp at h
    · rcases j with m | cd
      · simp at h
      · dsimp only at h
        split at h
        · simp at h
        · split at h
          · simp at h
          · rcases hr : env.result with m | ⟨s2, tx2, j2⟩ <;> rw [hr] at h
            · simp at h
            · dsimp only at h
              split at h
              · simp at h
              · rcases j2 with m | rd
                · simp at h
                · dsimp only at h
                  rcases hg : rd.generations with - | (- | ⟨g, gs⟩) <;> rw [hg] at h
                  · simp at h
                  · simp at h
                  · dsimp only at h
                    split at h
                    · exact Horde.resolveImage_success_form env.image _ u p h
                    · simp at h

/-- Oracles under which the poll operation completes with inline data. -/
def wHordeEnv : Horde.Env :=
  ⟨.threw "x",
   .resp 200 "" (.ok ⟨false, true, none, none⟩),
   .resp 200 "" (.ok ⟨some [⟨some "iVBORinline"⟩]⟩),
   fun _ => .threw "x"⟩

/-- Witness for C3 (amended) at a concrete completed poll. -/
theorem checkstatus_success_is_data_uri_witness :
    (Horde.checkStatus wHordeEnv).body =
      .success ("data:image/png;base64," ++ "iVBORinline") "aihorde" ∧
    ∃ mime rest, ("data:image/png;base64," ++ "iVBORinline" : String) =
      "data:" ++ mime ++ ";base64," ++ rest :=
  ⟨by decide, checkstatus_success_is_data_uri wHordeEnv _ "aihorde" (by decide)⟩

/-- C3 (counterexample): the streaming worker `part_000` returns a success
envelope whose `imageUrl` is the backend-supplied remote URL unchanged —
not a self-contained `data:` URI. -/
theorem streaming_success_passes_url_through :
    (Subnp.generateImage wf404 ⟨.ok wBody⟩).1 =
      ⟨200, .success "https://cdn.example.com/img.png" "subnp"⟩ ∧
    startsWithStr "https://cdn.example.com/img.png" "data:" = false := ⟨by decide, by decide⟩
